import Mathlib

/-!
Verification of `repo_parse/parser/example/example.go`.

A shallow embedding of the single Go source file of this repository
(`src/repo_parse/parser/example/example.go`) together with proofs of the
specification's claims about it.

Go's `int` is modeled as unbounded `Int`: every integer value produced by
this program (swap of 1 and 2, cumulative sums of arguments bounded by 45
in absolute value, the literal 42) lies far inside the `int64` range, so
overflow never occurs and wraparound is irrelevant to the claims.
-/

/-- Package-level variable `name` (example.go line 15): `name string = "Go"`. -/
def name : String := "Go"

/-- Package-level variable `age` (example.go line 16): `age int = 10`. -/
def age : Int := 10

/-- Struct `Address` (example.go lines 23-25). -/
structure Address where
  City : String
  State : String
  deriving DecidableEq, Repr

/-- Struct `Person` with embedded `Address` (example.go lines 28-32). -/
structure Person where
  Name : String
  Age : Int
  Address : Address
  deriving DecidableEq, Repr

/-- Function `greet` (example.go lines 46-48): `return "Hello, " + name`. -/
def greet (name : String) : String := "Hello, " ++ name

/-- Function `swap` (example.go lines 55-57): `return y, x`. -/
def swap (x y : Int) : Int × Int := (y, x)

/-- Method `(p Person) greet()` (example.go lines 60-62): `return "Hello, " + p.Name`. -/
def Person.greet (p : Person) : String := "Hello, " ++ p.Name

/-- Pointer-receiver method `(p *Person) setName(name string)`
(example.go lines 65-67): `p.Name = name`. The mutation of `*p` is embedded
as returning the updated struct value. -/
def Person.setName (p : Person) (name : String) : Person :=
  { p with Name := name }

/-- The captured accumulator of `adder()` is initialized with `sum := 0`
(example.go line 71). -/
def adderInit : Int := 0

/-- One call of the closure returned by `adder()` (example.go lines 72-75):
`sum += x; return sum`. The captured variable `sum` is embedded as explicit
state; the call returns the value returned to the caller together with the
new state of `sum`. -/
def adderCall (sum x : Int) : Int × Int := (sum + x, sum + x)

/-- Run the closure returned by `adder()` on a list of successive arguments,
starting from accumulator state `sum`, collecting the returned values. -/
def runAdder (sum : Int) : List Int → List Int
  | [] => []
  | x :: xs => (adderCall sum x).1 :: runAdder (adderCall sum x).2 xs

/-- The values returned by a fresh `adder()` closure on a list of successive
arguments. -/
def adderResults (args : List Int) : List Int := runAdder adderInit args

/-- A schedule of calls interleaving two `adder()` closures: each entry is
`(side, argument)`, where `side = true` calls the first closure (`pos` in
`main`) and `side = false` calls the second (`neg` in `main`). -/
def leftArgs (sched : List (Bool × Int)) : List Int :=
  (sched.filter (fun c => c.1)).map (fun c => c.2)

/-- The arguments a schedule passes to the second closure. -/
def rightArgs (sched : List (Bool × Int)) : List Int :=
  (sched.filter (fun c => !c.1)).map (fun c => c.2)

/-- Run an interleaved schedule of calls against two separately created
`adder()` closures, whose captured accumulators are the explicit states
`sL` and `sR`; returns the values each closure returned, in call order. -/
def runInterleaved (sL sR : Int) : List (Bool × Int) → List Int × List Int
  | [] => ([], [])
  | c :: rest =>
    if c.1 then
      let r := adderCall sL c.2
      let p := runInterleaved r.2 sR rest
      (r.1 :: p.1, p.2)
    else
      let r := adderCall sR c.2
      let p := runInterleaved sL r.2 rest
      (p.1, r.1 :: p.2)

/-- State of the goroutine / WaitGroup section of `main`
(example.go lines 107-113).

`mainPC`: 0 = before `wg.Add(1)`, 1 = before `go func(){...}()`,
2 = blocked at `wg.Wait()`, 3 = past `wg.Wait()`.

`goPC`: 0 = goroutine not yet spawned, 1 = spawned and before its
`fmt.Println`, 2 = before its deferred `wg.Done()`, 3 = finished.

`wg` is the WaitGroup counter; `adds`, `spawns`, `dones`, `prints` count
the `wg.Add(1)` calls, goroutine launches, `wg.Done()` calls and goroutine
print statements executed so far. -/
structure GoState where
  mainPC : Nat
  goPC : Nat
  wg : Nat
  adds : Nat
  spawns : Nat
  dones : Nat
  prints : Nat
  deriving DecidableEq, Repr

/-- Initial state: `var wg sync.WaitGroup` (counter 0), nothing executed. -/
def initState : GoState := ⟨0, 0, 0, 0, 0, 0, 0⟩

/-- One interleaving step of the goroutine section: the list of successor
states. `wg.Add(1)` increments the counter; the `go` statement launches the
goroutine; `wg.Wait()` is enabled only once the counter is zero; the
goroutine prints and then runs its deferred `wg.Done()` as it completes. -/
def goStep (s : GoState) : List GoState :=
  (if s.mainPC = 0 then
    [{ s with mainPC := 1, wg := s.wg + 1, adds := s.adds + 1 }] else []) ++
  (if s.mainPC = 1 then
    [{ s with mainPC := 2, goPC := 1, spawns := s.spawns + 1 }] else []) ++
  (if s.mainPC = 2 ∧ s.wg = 0 then [{ s with mainPC := 3 }] else []) ++
  (if s.goPC = 1 then [{ s with goPC := 2, prints := s.prints + 1 }] else []) ++
  (if s.goPC = 2 then
    [{ s with goPC := 3, wg := s.wg - 1, dones := s.dones + 1 }] else [])

/-- States reachable from `initState` under any interleaving. -/
inductive Reachable : GoState → Prop
  | refl : Reachable initState
  | tail {s t : GoState} : Reachable s → t ∈ goStep s → Reachable t

/-- The complete reachable state space of the goroutine section: the section
is deterministic up to the single point where `main` is blocked at
`wg.Wait()` while the goroutine runs. -/
def goStateSpace : List GoState :=
  [⟨0, 0, 0, 0, 0, 0, 0⟩,
   ⟨1, 0, 1, 1, 0, 0, 0⟩,
   ⟨2, 1, 1, 1, 1, 0, 0⟩,
   ⟨2, 2, 1, 1, 1, 0, 1⟩,
   ⟨2, 3, 0, 1, 1, 1, 1⟩,
   ⟨3, 3, 0, 1, 1, 1, 1⟩]

/-- Function `Haha` (example.go lines 50-52): takes two pointers to
`Reader` interface values and returns the first (`return name`). The
pointer type is kept abstract. -/
def Haha {ReaderPtr : Type} (name niu : ReaderPtr) : ReaderPtr := name

/-- Custom type `MyInt` (example.go line 20) is declared as `Address`.
(Line 99 nonetheless initializes a `MyInt` from the integer literal 42,
which is ill-typed Go; the file is a syntax fixture, not compiling code.) -/
abbrev MyInt := Address

/-- The names of the methods defined on `Person` in example.go: `greet`
(line 60) and `setName` (line 65), and no others. -/
def personMethodNames : List String := ["greet", "setName"]

/-- The method set required by `io.Reader`: a single method `Read`. The
file mirrors this signature in its own `Reader` interface (lines 35-37). -/
def ioReaderMethodNames : List String := ["Read"]

/-- Go interface satisfaction on method names: a type implements an
interface when it provides every required method. -/
def implementsMethods (provided required : List String) : Bool :=
  required.all (fun m => provided.contains m)

/-- The externally observable effects a statement of this program could
perform; `main` only ever produces `print` (console output via
`fmt.Println`). -/
inductive Effect where
  | print (s : String)
  | fileWrite (path data : String)
  | netSend (endpoint data : String)
  | stateWrite (key value : String)
  deriving DecidableEq, Repr

def Effect.isPrint : Effect → Bool
  | .print _ => true
  | _ => false

/-- The effect trace of `main` (example.go lines 79-120), in program order:
`fmt.Println(greet(name))`; `fmt.Println(a, b)` for `a, b := swap(1, 2)`;
`fmt.Println(p.greet())` before and after `p.setName("Bob")`;
`fmt.Println(int(number))` for `number = 42`; the goroutine's
`fmt.Println("Inside goroutine")` (sequenced before `main` resumes, by
`wg.Wait()`); then ten iterations printing `pos(i)` and `neg(-2*i)`. -/
def mainEffects : List Effect :=
  let ab := swap 1 2
  let p : Person := ⟨"Alice", 30, ⟨"Wonderland", "Fiction"⟩⟩
  let pRenamed := p.setName ("Bob")
  let number : Int := 42
  [Effect.print (greet name),
   Effect.print (toString ab.1 ++ " " ++ toString ab.2),
   Effect.print (p.greet),
   Effect.print (pRenamed.greet),
   Effect.print (toString number),
   Effect.print ("Inside goroutine")]
  ++ ((adderResults ((List.range 10).map (fun i => (i : Int)))).zip
        (adderResults ((List.range 10).map (fun i => (-2 * (i : Int)))))).map
      (fun pr => Effect.print (toString pr.1 ++ " " ++ toString pr.2))

/-- Name and return-type list of every function and method defined (with a
body) in example.go. The interface methods `Read` and `Write` (lines 36,
42) are signature declarations without bodies, so they define nothing. -/
def definedFunctionReturnTypes : List (String × List String) :=
  [("greet", ["string"]),
   ("Haha", ["*Reader"]),
   ("swap", ["int", "int"]),
   ("Person.greet", ["string"]),
   ("Person.setName", []),
   ("adder", ["func(int) int"]),
   ("main", [])]

/-- The text of `src/repo_parse/parser/example/example.go`, one entry per
line (the file has no trailing newline after its final line). -/
def exampleGoLines : List String :=
  [ "// Package main provides a comprehensive example to cover various Go language syntax elements.",
    "package main",
    "",
    "import (",
    "    \"fmt\"",
    "    \"io\"",
    "    \"sync\"",
    ")",
    "",
    "// Constants",
    "const Pi = 3.14",
    "",
    "// Variables",
    "var (",
    "    name string = \"Go\"",
    "    age  int    = 10",
    ")",
    "",
    "// Custom type",
    "type MyInt Address",
    "",
    "// Struct definition",
    "type Address struct \x7b",
    "    City, State string",
    "\x7d",
    "",
    "// Struct with embedding",
    "type Person struct \x7b",
    "    Name    string",
    "    Age     int",
    "    Address // Embedding struct",
    "\x7d",
    "",
    "// Interface definition",
    "type Reader interface \x7b",
    "    Read(p []byte) (n int, err error)",
    "\x7d",
    "",
    "// Interface embedding",
    "type ReadWriter interface \x7b",
    "    Reader",
    "    Write(p []byte) (n int, err error)",
    "\x7d",
    "",
    "// Function definition",
    "func greet(name string) string \x7b",
    "    return \"Hello, \" + name",
    "\x7d",
    "",
    "func Haha(name, niu *Reader) *Reader \x7b",
    "    return name",
    "\x7d",
    "",
    "// Function with multiple return values",
    "func swap(x, y int) (int, int) \x7b",
    "    return y, x",
    "\x7d",
    "",
    "// Method definition",
    "func (p Person) greet() string \x7b",
    "    return \"Hello, \" + p.Name",
    "\x7d",
    "",
    "// Pointer receiver method",
    "func (p *Person) setName(name string) \x7b",
    "    p.Name = name",
    "\x7d",
    "",
    "// Function with closure",
    "func adder() func(int) int \x7b",
    "    sum := 0",
    "    return func(x int) int \x7b",
    "         sum += x",
    "         return sum",
    "    \x7d",
    "\x7d",
    "",
    "// Main function",
    "func main() \x7b",
    "    // Local variable",
    "    var localName string = \"Local Go\"",
    "",
    "    // Function call",
    "    fmt.Println(greet(name))",
    "",
    "    // Multiple return values",
    "    a, b := swap(1, 2)",
    "    fmt.Println(a, b)",
    "",
    "    // Struct initialization",
    "    p := Person\x7bName: \"Alice\", Age: 30, Address: Address\x7bCity: \"Wonderland\", State: \"Fiction\"\x7d\x7d",
    "    fmt.Println(p.greet())",
    "",
    "    // Pointer",
    "    p.setName(\"Bob\")",
    "    fmt.Println(p.greet())",
    "",
    "    // Type conversion",
    "    var number MyInt = 42",
    "    fmt.Println(int(number))",
    "",
    "    // Interface implementation",
    "    var r io.Reader",
    "    r = &p // Person does not implement io.Reader, but let\x27s assume it did",
    "",
    "    // Goroutine and sync",
    "    var wg sync.WaitGroup",
    "    wg.Add(1)",
    "    go func() \x7b",
    "         defer wg.Done()",
    "         fmt.Println(\"Inside goroutine\")",
    "    \x7d()",
    "    wg.Wait()",
    "",
    "    // Using a closure",
    "    pos, neg := adder(), adder()",
    "    for i := 0; i < 10; i++ \x7b",
    "         fmt.Println(pos(i), neg(-2*i))",
    "    \x7d",
    "\x7d"]

/-- The source files of the repository: a single Go file. -/
def repositorySourceFiles : List (String × List String) :=
  [("repo_parse/parser/example/example.go", exampleGoLines)]

theorem goStateSpace_closed :
    ∀ s ∈ goStateSpace, ∀ t ∈ goStep s, t ∈ goStateSpace := by decide

theorem reachable_mem_goStateSpace (s : GoState) (h : Reachable s) :
    s ∈ goStateSpace := by
  induction h with
  | refl => decide
  | tail _ hstep ih => exact goStateSpace_closed _ ih _ hstep

theorem goStateSpace_inv : ∀ s ∈ goStateSpace,
    s.spawns ≤ 1 ∧ s.dones ≤ 1 ∧
    (1 ≤ s.spawns → s.adds = 1 ∧ 1 ≤ s.mainPC) ∧
    (s.goPC = 3 → s.dones = 1 ∧ s.prints = 1) ∧
    (s.mainPC = 3 → s.dones = 1 ∧ s.spawns = 1) ∧
    (goStep s = [] → s.mainPC = 3 ∧ s.goPC = 3 ∧ s.spawns = 1 ∧ s.dones = 1) := by
  decide

theorem runAdder_getElem (args : List Int) : ∀ (s : Int) (n : Nat), n < args.length →
    (runAdder s args)[n]? = some (s + (args.take (n + 1)).sum) := by
  induction args with
  | nil => intro s n h; simp at h
  | cons x xs ih =>
    intro s n h
    cases n with
    | zero => simp [runAdder, adderCall]
    | succ m =>
      have hm : m < xs.length := by simpa using h
      simp [runAdder, adderCall, ih (s + x) m hm, add_assoc]

theorem runInterleaved_split (sched : List (Bool × Int)) : ∀ sL sR : Int,
    runInterleaved sL sR sched =
      (runAdder sL (leftArgs sched), runAdder sR (rightArgs sched)) := by
  induction sched with
  | nil => intro sL sR; rfl
  | cons c rest ih =>
    intro sL sR
    by_cases hc : c.1 <;>
      simp [runInterleaved, leftArgs, rightArgs, runAdder, hc, ih,
        leftArgs, rightArgs]

/-- C1: `swap(1, 2)` returns `(2, 1)`, and in general the two return values
are the inputs in reversed order. -/
theorem swap_one_two_reversed :
    swap 1 2 = (2, 1) ∧ ∀ x y : Int, swap x y = (y, x) :=
  ⟨rfl, fun _ _ => rfl⟩

/-- C8: `setName` sets the `Name` field and leaves `Age` and the embedded
`Address` (with its `City` and `State`) unchanged, for every `Person` and
every new name. -/
theorem setName_frame (p : Person) (n : String) :
    (p.setName n).Name = n ∧ (p.setName n).Age = p.Age ∧
    (p.setName n).Address = p.Address ∧
    (p.setName n).Address.City = p.Address.City ∧
    (p.setName n).Address.State = p.Address.State :=
  ⟨rfl, rfl, rfl, rfl, rfl⟩

/-- C9: the method `p.greet()` agrees with the free function `greet` applied
to `p.Name`, and both equal `"Hello, "` concatenated with `p.Name`. -/
theorem method_greet_eq_free_greet (p : Person) :
    p.greet = greet p.Name ∧ p.greet = "Hello, " ++ p.Name :=
  ⟨rfl, rfl⟩

/-- C2: a closure returned by `adder()` starts its accumulator at zero, its
`n`-th call returns the sum of the first `n` arguments it has received, and
on the successive arguments `0, 1, 2, 3` it returns the cumulative sums
`0, 1, 3, 6`. -/
theorem adder_cumulative_sums (args : List Int) (n : Nat) (h : n < args.length) :
    adderInit = 0 ∧
    (adderResults args)[n]? = some ((args.take (n + 1)).sum) ∧
    adderResults [0, 1, 2, 3] = [0, 1, 3, 6] := by
  refine ⟨rfl, ?_, by decide⟩
  simpa [adderResults, adderInit] using runAdder_getElem args 0 n h

theorem adder_cumulative_sums_witness :
    adderInit = 0 ∧
    (adderResults [0, 1, 2, 3])[3]? = some ((([0, 1, 2, 3] : List Int).take 4).sum) ∧
    adderResults [0, 1, 2, 3] = [0, 1, 3, 6] :=
  adder_cumulative_sums [0, 1, 2, 3] 3 (by decide)

/-- C3: in every state reachable under any interleaving of the goroutine
section of `main`: at most one goroutine is ever launched and `wg.Done()`
runs at most once; once a goroutine has launched, `wg.Add(1)` has already
executed exactly once (the increment precedes the launch); a completed
goroutine has decremented the WaitGroup exactly once, with its print
preceding the deferred `wg.Done()`; `main` is past `wg.Wait()` only after
that single decrement; and the only stuck (terminal) state is the one
where exactly one goroutine was launched and has completed. -/
theorem goroutine_waitgroup (s : GoState) (h : Reachable s) :
    s.spawns ≤ 1 ∧ s.dones ≤ 1 ∧
    (1 ≤ s.spawns → s.adds = 1 ∧ 1 ≤ s.mainPC) ∧
    (s.goPC = 3 → s.dones = 1 ∧ s.prints = 1) ∧
    (s.mainPC = 3 → s.dones = 1 ∧ s.spawns = 1) ∧
    (goStep s = [] → s.mainPC = 3 ∧ s.goPC = 3 ∧ s.spawns = 1 ∧ s.dones = 1) := by
  have hmem : s ∈ goStateSpace := reachable_mem_goStateSpace s h
  exact goStateSpace_inv s hmem

theorem goroutine_waitgroup_witness :
    initState.spawns ≤ 1 ∧ initState.dones ≤ 1 ∧
    (1 ≤ initState.spawns → initState.adds = 1 ∧ 1 ≤ initState.mainPC) ∧
    (initState.goPC = 3 → initState.dones = 1 ∧ initState.prints = 1) ∧
    (initState.mainPC = 3 → initState.dones = 1 ∧ initState.spawns = 1) ∧
    (goStep initState = [] →
      initState.mainPC = 3 ∧ initState.goPC = 3 ∧
      initState.spawns = 1 ∧ initState.dones = 1) :=
  goroutine_waitgroup initState Reachable.refl

/-- C10: closures returned by separate calls to `adder()` have independent
accumulator state: under every interleaved schedule of calls, each closure
returns exactly the values it would return on its own argument sequence
alone, so invoking one closure never changes what the other returns. -/
theorem adder_closures_independent (sched : List (Bool × Int)) :
    runInterleaved adderInit adderInit sched =
      (adderResults (leftArgs sched), adderResults (rightArgs sched)) :=
  runInterleaved_split sched adderInit adderInit

/-- Claim C4: `Person` provides no `Read` method (its only methods are
`greet` and `setName`), so it does not implement `io.Reader`; the
assignment `r = &p` at line 104 is therefore not valid Go, and the file as
given does not compile as correct production logic. -/
theorem person_not_ioReader :
    implementsMethods personMethodNames ioReaderMethodNames = false ∧
    personMethodNames.contains ("Read") = false :=
  ⟨rfl, rfl⟩

/-- Claim C5: the effect trace of `main` consists solely of print events;
no file, network, or persisted-state effect occurs. -/
theorem main_only_prints : mainEffects.all Effect.isPrint = true := by decide

/-- Claim C6: no function or method defined in the file has `error` among
its return types, and every defined function, as embedded, is total and
error-free: it returns a plain value on every input, with no failure or
recovery path (`Haha` simply returns its first argument). -/
theorem no_error_returns :
    (definedFunctionReturnTypes.all (fun f => !(f.2.contains ("error")))) = true ∧
    (∀ n : String, ∃ r, greet n = r) ∧
    (∀ x y : Int, ∃ r, swap x y = r) ∧
    (∀ p : Person, ∃ r, Person.greet p = r) ∧
    (∀ (p : Person) (n : String), ∃ r, Person.setName p n = r) ∧
    (∀ (T : Type) (a b : T), Haha a b = a) ∧
    (∀ sum x : Int, ∃ r, adderCall sum x = r) :=
  ⟨rfl, fun _ => ⟨_, rfl⟩, fun _ _ => ⟨_, rfl⟩, fun _ => ⟨_, rfl⟩,
   fun _ _ => ⟨_, rfl⟩, fun _ _ _ => rfl, fun _ _ => ⟨_, rfl⟩⟩

/-- Claim C7 counterexample: the repository's single source file is not
121 lines long (it has 120 lines). -/
theorem exampleGo_not_121_lines : ¬ exampleGoLines.length = 121 := by decide

/-- Claim C7 (amended): the repository consists of a single source file,
`repo_parse/parser/example/example.go`, exactly 120 lines long, whose
opening comment states its purpose: a comprehensive example to cover
various Go language syntax elements. -/
theorem single_go_file_120_lines :
    repositorySourceFiles.length = 1 ∧
    exampleGoLines.length = 120 ∧
    exampleGoLines.head? =
      some ("// Package main provides a comprehensive example to cover various Go language syntax elements.") :=
  ⟨rfl, by decide, rfl⟩
